import Mathlib

/-! Verification of the thread-scoped answering orchestrator (`src/app.py`).

The development shallowly embeds the program:

* `normalize` (app.py lines 111-130): the text normalizer, including the
  exact semantics of Python `str.replace(tok, '')`, `str.strip()` and
  `re.sub('<#{}|.*?>'.format(cid), '', text)`.  Note that in the channel
  rule the `|` of the format string is an (unescaped) regex alternation,
  so the compiled pattern is the alternation of the literal `<#` + cid and
  the lazy pattern `.*?>`; the embedding mirrors this faithfully.
* `handler_app_mention` / `handler_message` (lines 38-61): field
  extraction from the inbound event.  `thread_ts` uses `.get` with a
  default, `blocks` uses direct subscription (a missing key raises), which
  the embedding models with `Option`.
* `answer` (lines 64-108): modelled as the sequence of externally visible
  effects it performs, parametrised by the outcome of each fallible
  collaborator call.  The source has no try/finally: an exception raised
  by any step propagates and skips every later line, including
  `client.reactions_remove`.
-/

namespace App

/-! ## Python string primitives -/

/-- Characters treated as whitespace by Python `str.strip()`
(the ASCII and Latin-1 ones; the inputs in this development are ASCII). -/
def pyIsSpace (c : Char) : Bool :=
  c = ' ' || c = '\t' || c = '\n' || c = '\x0b' || c = '\x0c' || c = '\r'
    || c = '\x1c' || c = '\x1d' || c = '\x1e' || c = '\x1f' || c = '\x85' || c = '\xa0'

/-- Python `s.strip()`: drop whitespace from both ends. -/
def pyStripL (s : List Char) : List Char :=
  ((s.dropWhile pyIsSpace).reverse.dropWhile pyIsSpace).reverse

/-- Python `s.strip()` on `String`. -/
def pyStrip (s : String) : String :=
  String.mk (pyStripL s.data)

/-- Python `s.replace(pat, '')` for a non-empty literal `pat`: remove all
non-overlapping occurrences, scanning left to right.  The `fuel` argument
makes the recursion structural; every step consumes at least one character
of `s`, so `fuel = s.length` (see `pyReplaceL`) never runs out. -/
def pyReplaceAux (pat : List Char) : Nat → List Char → List Char
  | 0, s => s
  | _ + 1, [] => []
  | fuel + 1, c :: rest =>
    if pat.isPrefixOf (c :: rest) then
      pyReplaceAux pat fuel (rest.drop (pat.length - 1))
    else
      c :: pyReplaceAux pat fuel rest

/-- Python `s.replace(pat, '')` (non-empty `pat`). -/
def pyReplaceL (pat s : List Char) : List Char :=
  pyReplaceAux pat s.length s

/-- Python `s.replace(pat, '')` on `String`. -/
def pyReplace (pat s : String) : String :=
  String.mk (pyReplaceL pat.data s.data)

/-- The lazy regex branch `.*?>` at the current position: the length of the
shortest match, i.e. the distance to the first `'>'`, provided no newline
intervenes (`.` does not match a newline).  `none` when there is no match. -/
def lazyToGt : List Char → Option Nat
  | [] => none
  | c :: rest =>
    if c = '>' then some 1
    else if c = '\n' then none
    else
      match lazyToGt rest with
      | some n => some (n + 1)
      | none => none

/-- Match length at the current position of the Python pattern
`'<#{}|.*?>'.format(cid)`.  Because the `|` is unescaped it is regex
alternation: the first branch is the literal `<#` + cid, the second is the
lazy `.*?>`.  Python tries the branches in order at each position.

Modelling boundary: cid itself is interpolated into the pattern unescaped
as well, so this embedding — which treats cid as literal characters — is
exact precisely when cid contains no regex metacharacter (true of
alphanumeric channel ids such as `C999`).  An id containing a
metacharacter would change the compiled pattern (or make `re.compile`
raise), which this model does not cover; the one theorem that quantifies
over cid (`channel_removal_no_gt`) therefore restricts cid to
alphanumeric characters. -/
def chanMatchLen (cid : List Char) (s : List Char) : Option Nat :=
  if ('<' :: '#' :: cid).isPrefixOf s then some (cid.length + 2) else lazyToGt s

/-- Python `re.sub('<#{}|.*?>'.format(cid), '', s)`: scan left to right,
removing each leftmost match (every branch match has length at least 1, so
`fuel = s.length` suffices, see `chanSubL`). -/
def chanSubAux (cid : List Char) : Nat → List Char → List Char
  | 0, s => s
  | _ + 1, [] => []
  | fuel + 1, c :: rest =>
    match chanMatchLen cid (c :: rest) with
    | some n => chanSubAux cid fuel (rest.drop (n - 1))
    | none => c :: chanSubAux cid fuel rest

/-- Python `re.sub('<#{}|.*?>'.format(cid), '', s)`. -/
def chanSubL (cid s : List Char) : List Char :=
  chanSubAux cid s.length s

/-! ## Markup segments (Slack "blocks") -/

mutual
/-- One markup segment: a type tag plus the payload fields read by
`normalize` (`elements`, `range`, `channel_id`, `user_id`).  An absent
dictionary key is `none`; an empty string is `some ""` (both are falsy in
the Python guards). -/
inductive Block : Type where
  | mk (ty : String) (elements : BlockList) (range : Option String)
       (channel_id : Option String) (user_id : Option String)
  deriving DecidableEq
/-- A list of sibling segments (mutually inductive with `Block` so that
recursion over nested segments is structural). -/
inductive BlockList : Type where
  | nil : BlockList
  | cons (b : Block) (rest : BlockList) : BlockList
  deriving DecidableEq
end

def Block.ty : Block → String
  | .mk t _ _ _ _ => t

def Block.elements : Block → BlockList
  | .mk _ e _ _ _ => e

def Block.range : Block → Option String
  | .mk _ _ r _ _ => r

def Block.channel_id : Block → Option String
  | .mk _ _ _ c _ => c

def Block.user_id : Block → Option String
  | .mk _ _ _ _ u => u

def BlockList.isEmpty : BlockList → Bool
  | .nil => true
  | .cons _ _ => false

def BlockList.append : BlockList → BlockList → BlockList
  | .nil, l => l
  | .cons b rest, l => .cons b (BlockList.append rest l)

/-- Python truthiness of the guard `'key' in block and block['key']` for a
string-valued payload field: present and non-empty. -/
def truthy : Option String → Bool
  | none => false
  | some s => !s.isEmpty

/-- The literal `'<!{}>'.format(range)`. -/
def broadcastTok (r : String) : List Char :=
  '<' :: '!' :: (r.data ++ ['>'])

/-- The literal `'<@{}>'.format(user_id)`. -/
def userTok (u : String) : List Char :=
  '<' :: '@' :: (u.data ++ ['>'])

mutual
/-- The `for block in blocks` loop body of `normalize` (app.py 112-127),
threading the mutated `text` through the iterations. -/
def goBlocks (text : List Char) : BlockList → List Char
  | .nil => text
  | .cons b rest => goBlocks (stepBlock text b) rest
/-- Processing of one block: recursive descent into `elements` (which, as
in the source, re-enters `normalize` and therefore also strips), then the
broadcast, channel and user removal rules in the source's order. -/
def stepBlock (text : List Char) : Block → List Char
  | Block.mk ty els range channel_id user_id =>
    let t1 := if els.isEmpty then text else pyStripL (goBlocks text els)
    let t2 := if ty = "broadcast" && truthy range then
        pyReplaceL (broadcastTok (range.getD "")) t1 else t1
    let t3 := if ty = "channel" && truthy channel_id then
        chanSubL (channel_id.getD "").data t2 else t2
    if ty = "user" && truthy user_id then
      pyReplaceL (userTok (user_id.getD "")) t3 else t3
end

/-- The function `normalize(text, blocks)` (app.py 111-130) on character
lists. -/
def normalizeL (text : List Char) (blocks : BlockList) : List Char :=
  pyStripL (goBlocks text blocks)

/-- The function `normalize(text, blocks)` (app.py 111-130). -/
def normalize (text : String) (blocks : BlockList) : String :=
  String.mk (normalizeL text.data blocks)

/-! ## Inbound events and the two handlers (app.py 38-61) -/

/-- The fields of the inbound Slack event that the handlers read.
`thread_ts` is read with `event.get('thread_ts', event['ts'])`, so an
absent field is modelled by `none`; `blocks` is read with
`event['blocks']`, so an absent key raises `KeyError`, also modelled by
`none` in the event and by a `none` result of the handler. -/
structure SlackEvent where
  channel : String
  text : String
  ts : String
  thread_ts : Option String
  blocks : Option BlockList
  deriving DecidableEq

/-- The argument tuple passed to `answer` by a handler. -/
structure AnswerArgs where
  channel : String
  text : String
  ts : String
  thread_ts : String
  blocks : BlockList
  deriving DecidableEq

/-- The handler `handler_app_mention` (app.py 38-48): field extraction and the call to
`answer`.  `some args` is the call that is made; `none` models the
`KeyError` raised by `event['blocks']` when the key is absent, which
prevents the call. -/
def handler_app_mention (event : SlackEvent) : Option AnswerArgs :=
  match event.blocks with
  | none => none
  | some bs =>
    some { channel := event.channel, text := event.text, ts := event.ts,
           thread_ts := event.thread_ts.getD event.ts, blocks := bs }

/-- The handler `handler_message` (app.py 51-61): the verbatim duplicate of
`handler_app_mention`'s body. -/
def handler_message (event : SlackEvent) : Option AnswerArgs :=
  match event.blocks with
  | none => none
  | some bs =>
    some { channel := event.channel, text := event.text, ts := event.ts,
           thread_ts := event.thread_ts.getD event.ts, blocks := bs }

/-- The data wiring of `answer` (app.py 64-108): which argument each
external effect receives.  The progress marker is attached to and removed
from `(channel, ts)`; the history is keyed by `thread_ts`
(`DynamoDBChatMessageHistory(..., thread_ts)`, line 84) and the reply is
threaded under `thread_ts` (`say(answer, thread_ts=thread_ts)`, line 101). -/
structure AnswerEffects where
  markerChannel : String
  markerTs : String
  historyKey : String
  replyThread : String
  deriving DecidableEq

def answerWiring (a : AnswerArgs) : AnswerEffects :=
  { markerChannel := a.channel, markerTs := a.ts,
    historyKey := a.thread_ts, replyThread := a.thread_ts }

/-! ## The `answer` orchestrator as a trace of external effects

`answer` (app.py 64-108) is straight-line code with no try/finally: when a
collaborator call raises, the exception propagates out of `answer` and all
later lines are skipped.  The model lists the externally visible effects
in source order, parametrised by the outcome of each fallible call:

* `cached`: whether the module-global `db` is already set (line 75);
* `retrievalOk`: whether `DeepLake(...)` (line 76) returns or raises;
* `historyOk`: whether binding the thread history
  (`DynamoDBChatMessageHistory`, line 84) returns or raises
  (`HistoryUnavailable`);
* `genOk`: whether the chain call (line 98) returns or raises
  (`GenerationFailed`). -/

/-- One externally visible effect of `answer`. -/
inductive Ev : Type where
  | attach       -- `client.reactions_add` (line 68)
  | initOk       -- `DeepLake(...)` returned; global `db` is now set (76)
  | initFail     -- `DeepLake(...)` raised; global `db` stays unset
  | bindHistory  -- `DynamoDBChatMessageHistory(...)` (line 84)
  | norm         -- `normalize(text, blocks)` evaluated (line 98)
  | modelCall    -- the chain call, i.e. the generation request (line 98)
  | appendHist   -- the chain's memory appends the new turn on success
  | reply        -- `say(answer, thread_ts=thread_ts)` (line 101)
  | detach       -- `client.reactions_remove` (line 104)
  deriving DecidableEq, Repr

/-- Effects from line 84 on, reached only once the vector store exists:
bind the history, evaluate `normalize`, make the model call; on success
the chain appends the turn, the reply is posted and the marker removed;
on a raising call the trace simply stops (no try/finally). -/
def afterDb (historyOk genOk : Bool) : List Ev :=
  if historyOk then
    Ev.bindHistory :: Ev.norm :: Ev.modelCall ::
      (if genOk then [Ev.appendHist, Ev.reply, Ev.detach] else [])
  else [Ev.bindHistory]

/-- One invocation of `answer`: the effect trace and the final state of
the module-global `db` cache. -/
def answerRun (cached retrievalOk historyOk genOk : Bool) : List Ev × Bool :=
  if cached then
    (Ev.attach :: afterDb historyOk genOk, true)
  else if retrievalOk then
    (Ev.attach :: Ev.initOk :: afterDb historyOk genOk, true)
  else
    ([Ev.attach, Ev.initFail], false)

/-- N sequential invocations of `answer` in one process, each with its own
collaborator outcomes, threading the `db` cache through. -/
def runSeq (cached : Bool) : List (Bool × Bool × Bool) → List Ev × Bool
  | [] => ([], cached)
  | (r, h, g) :: rest =>
    let p := answerRun cached r h g
    let q := runSeq p.2 rest
    (p.1 ++ q.1, q.2)

/-! ## Concrete segments and events used by the theorems -/

/-- A user-mention segment for user id `U123ABCXYZ9`. -/
def userSeg : Block := Block.mk "user" .nil none none (some "U123ABCXYZ9")

/-- A broadcast-marker segment with scope `everyone`. -/
def broadcastSeg : Block := Block.mk "broadcast" .nil (some "everyone") none none

/-- A channel-reference segment for channel id `C999`. -/
def channelSeg : Block := Block.mk "channel" .nil none (some "C999") none

/-- The example input text of the specification. -/
def exText : String := "<@U123ABCXYZ9> <!everyone> <#C999|general> please help"

/-- An inbound event carrying no `blocks` field. -/
def evNoBlocks : SlackEvent :=
  { channel := "C1", text := "hi", ts := "100.1", thread_ts := none, blocks := none }

/-- An inbound event with an empty `blocks` list and no `thread_ts`. -/
def evThreadAbsent : SlackEvent :=
  { channel := "C1", text := "what is the refund policy?", ts := "100.1",
    thread_ts := none, blocks := some .nil }

/-- The effect trace of one `answer` invocation. -/
def answerTrace (cached retrievalOk historyOk genOk : Bool) : List Ev :=
  (answerRun cached retrievalOk historyOk genOk).1

/-! ## C4 — markup removal on the specification's example -/

/-- C4: on the input text with a user mention of `U123ABCXYZ9`, a
broadcast marker `everyone` and a channel reference `C999|general`,
`normalize` with the three matching sibling segments returns exactly
`"please help"`: the three markup tokens are removed and whitespace is
trimmed only at the ends. -/
theorem markup_removal_example :
    normalize exText (.cons userSeg (.cons broadcastSeg (.cons channelSeg .nil)))
      = "please help" := by decide

/-! ## C3 — permutations of sibling segments -/

/-- C3 counterexample: permuting sibling segments can change the result of
`normalize`.  On the text `"x<!everyone>"`, the order broadcast-then-channel
yields `"x"`, while channel-then-broadcast yields `""`: the channel rule's
unescaped regex alternation (`<#C999|.*?>`) removes the whole substring
`"x<!everyone>"` via its lazy branch `.*?>` before the broadcast rule can
match, so the two permutations disagree. -/
theorem segment_permutation_counterexample :
    normalize "x<!everyone>" (.cons broadcastSeg (.cons channelSeg .nil)) = "x" ∧
    normalize "x<!everyone>" (.cons channelSeg (.cons broadcastSeg .nil)) = "" ∧
    ("x" : String) ≠ "" := by decide

/-- C3 (amended): permuting sibling segments can change the result in
general, but on the specification's example text with its three matching
segments every one of the six permutations yields the same normalized
string `"please help"`. -/
theorem segment_permutation_example :
    normalize exText (.cons userSeg (.cons broadcastSeg (.cons channelSeg .nil))) = "please help" ∧
    normalize exText (.cons userSeg (.cons channelSeg (.cons broadcastSeg .nil))) = "please help" ∧
    normalize exText (.cons broadcastSeg (.cons userSeg (.cons channelSeg .nil))) = "please help" ∧
    normalize exText (.cons broadcastSeg (.cons channelSeg (.cons userSeg .nil))) = "please help" ∧
    normalize exText (.cons channelSeg (.cons userSeg (.cons broadcastSeg .nil))) = "please help" ∧
    normalize exText (.cons channelSeg (.cons broadcastSeg (.cons userSeg .nil))) = "please help" := by
  decide

/-! ## C5 — what the channel rule removes -/

/-- C5 counterexample: the text `"hello> world"` contains no channel
reference at all, so by the claim `normalize` with one channel segment
should only trim it; instead the unescaped `|` in
`re.sub('<#C999|.*?>', '', text)` makes `.*?>` an independent branch that
removes `"hello>"`, yielding `"world"`.  (The plain literal removal of
`"<#C999"` would have left the text unchanged.) -/
theorem channel_removal_counterexample :
    normalize "hello> world" (.cons channelSeg .nil) = "world" ∧
    pyStrip "hello> world" = "hello> world" ∧
    pyReplace (String.mk ('<' :: '#' :: "C999".data)) "hello> world" = "hello> world" := by
  decide

/-! ## C7 — extraction of the segments list -/

/-- C7 counterexample: an inbound event with no `blocks` field does not
default to an empty segments list — the subscription `event['blocks']`
raises, so neither handler ever invokes the orchestration (`none`). -/
theorem blocks_extraction_counterexample :
    handler_app_mention evNoBlocks = none ∧ handler_message evNoBlocks = none := by
  decide

/-- C7 (amended): the handlers extract the segments as the event's
`blocks` field with no default: when the field is present the
orchestration is invoked with exactly that list (and the other extracted
fields), and when it is absent the handler fails and the orchestration is
not invoked. -/
theorem blocks_extraction (e : SlackEvent) :
    (e.blocks = none → handler_app_mention e = none ∧ handler_message e = none) ∧
    (∀ bs, e.blocks = some bs →
      handler_app_mention e = some { channel := e.channel, text := e.text, ts := e.ts,
                                     thread_ts := e.thread_ts.getD e.ts, blocks := bs } ∧
      handler_message e = some { channel := e.channel, text := e.text, ts := e.ts,
                                 thread_ts := e.thread_ts.getD e.ts, blocks := bs }) := by
  constructor
  · intro h
    simp [handler_app_mention, handler_message, h]
  · intro bs h
    simp [handler_app_mention, handler_message, h]

/-- Witness for `blocks_extraction`: on the event `evThreadAbsent` the
`blocks` field is present (an empty list), and both handlers invoke the
orchestration with it. -/
theorem blocks_extraction_witness :
    handler_app_mention evThreadAbsent
        = some { channel := evThreadAbsent.channel, text := evThreadAbsent.text,
                 ts := evThreadAbsent.ts,
                 thread_ts := evThreadAbsent.thread_ts.getD evThreadAbsent.ts,
                 blocks := BlockList.nil } ∧
    handler_message evThreadAbsent
        = some { channel := evThreadAbsent.channel, text := evThreadAbsent.text,
                 ts := evThreadAbsent.ts,
                 thread_ts := evThreadAbsent.thread_ts.getD evThreadAbsent.ts,
                 blocks := BlockList.nil } :=
  (blocks_extraction evThreadAbsent).2 BlockList.nil rfl

/-! ## C10 — the two handlers are the same function -/

/-- C10: `handler_app_mention` and `handler_message` extract exactly the
same fields with the same defaults and pass the same arguments to the
orchestration, so the two entry points denote the same function of the
inbound event. -/
theorem handlers_agree : ∀ e : SlackEvent, handler_app_mention e = handler_message e :=
  fun _ => rfl

/-! ## C1 — marker attach/detach lifecycle -/

/-- C1 counterexample: when the generation call fails, `answer` attaches
the marker once but never detaches it — `client.reactions_remove` (line
104) is only reached on the success path, as there is no try/finally. -/
theorem marker_lifecycle_counterexample :
    (answerTrace true true true false).count Ev.attach = 1 ∧
    (answerTrace true true true false).count Ev.detach = 0 := by decide

/-- C1 (amended): on every invocation of `answer` the marker attach
happens exactly once; the marker detach happens exactly once, after the
attach, when the body succeeds, and does not happen at all when the
vector-store initialization, the history binding or the generation call
fails. -/
theorem marker_attach_detach (cached retrievalOk historyOk genOk : Bool) :
    (answerTrace cached retrievalOk historyOk genOk).count Ev.attach = 1 ∧
    (((cached || retrievalOk) && historyOk && genOk) = true →
      (answerTrace cached retrievalOk historyOk genOk).count Ev.detach = 1 ∧
      (answerTrace cached retrievalOk historyOk genOk).indexOf Ev.attach <
        (answerTrace cached retrievalOk historyOk genOk).indexOf Ev.detach) ∧
    (((cached || retrievalOk) && historyOk && genOk) = false →
      (answerTrace cached retrievalOk historyOk genOk).count Ev.detach = 0) := by
  cases cached <;> cases retrievalOk <;> cases historyOk <;> cases genOk <;> decide

/-- Witness for `marker_attach_detach`: on the all-success invocation the
detach happens exactly once, after the attach. -/
theorem marker_attach_detach_witness :
    (answerTrace true true true true).count Ev.detach = 1 ∧
    (answerTrace true true true true).indexOf Ev.attach <
      (answerTrace true true true true).indexOf Ev.detach :=
  (marker_attach_detach true true true true).2.1 (by decide)

/-! ## C2 — ordering of the steps within one invocation -/

/-- C2 counterexample: in the all-success invocation both the history
binding and the normalization occur, but normalization does NOT precede
the memory binding — `normalize(text, blocks)` is evaluated at line 98,
after `DynamoDBChatMessageHistory`/`ConversationBufferMemory` are
constructed at lines 84-87. -/
theorem ordering_counterexample :
    Ev.bindHistory ∈ answerTrace true true true true ∧
    Ev.norm ∈ answerTrace true true true true ∧
    ¬ (answerTrace true true true true).indexOf Ev.norm <
        (answerTrace true true true true).indexOf Ev.bindHistory := by decide

/-- C2 (amended): within one invocation of `answer`, whenever the two
events of a pair both occur, marker attach precedes the memory (history)
binding, the memory binding precedes normalization, normalization
precedes the model call, and the model call precedes the history append
(which only occurs on generation success). -/
theorem invocation_ordering (cached retrievalOk historyOk genOk : Bool) :
    (Ev.attach ∈ answerTrace cached retrievalOk historyOk genOk →
      Ev.bindHistory ∈ answerTrace cached retrievalOk historyOk genOk →
      (answerTrace cached retrievalOk historyOk genOk).indexOf Ev.attach <
        (answerTrace cached retrievalOk historyOk genOk).indexOf Ev.bindHistory) ∧
    (Ev.bindHistory ∈ answerTrace cached retrievalOk historyOk genOk →
      Ev.norm ∈ answerTrace cached retrievalOk historyOk genOk →
      (answerTrace cached retrievalOk historyOk genOk).indexOf Ev.bindHistory <
        (answerTrace cached retrievalOk historyOk genOk).indexOf Ev.norm) ∧
    (Ev.norm ∈ answerTrace cached retrievalOk historyOk genOk →
      Ev.modelCall ∈ answerTrace cached retrievalOk historyOk genOk →
      (answerTrace cached retrievalOk historyOk genOk).indexOf Ev.norm <
        (answerTrace cached retrievalOk historyOk genOk).indexOf Ev.modelCall) ∧
    (Ev.modelCall ∈ answerTrace cached retrievalOk historyOk genOk →
      Ev.appendHist ∈ answerTrace cached retrievalOk historyOk genOk →
      (answerTrace cached retrievalOk historyOk genOk).indexOf Ev.modelCall <
        (answerTrace cached retrievalOk historyOk genOk).indexOf Ev.appendHist) := by
  cases cached <;> cases retrievalOk <;> cases historyOk <;> cases genOk <;> decide

/-- Witness for `invocation_ordering`: in the all-success trace the memory
binding precedes normalization. -/
theorem invocation_ordering_witness :
    (answerTrace true true true true).indexOf Ev.bindHistory <
      (answerTrace true true true true).indexOf Ev.norm :=
  (invocation_ordering true true true true).2.1 (by decide) (by decide)

/-! ## C9 — the vector store is initialized at most once per process -/

/-- The trace after the vector store exists contains no initialization
events. -/
theorem afterDb_count_init (historyOk genOk : Bool) :
    (afterDb historyOk genOk).count Ev.initOk = 0 ∧
    (afterDb historyOk genOk).count Ev.initFail = 0 := by
  cases historyOk <;> cases genOk <;> decide

/-- Once the `db` global is set, a sequence of invocations performs no
initialization at all and leaves the cache set. -/
theorem runSeq_cached_no_init :
    ∀ outs : List (Bool × Bool × Bool),
      (runSeq true outs).1.count Ev.initOk = 0 ∧
      (runSeq true outs).1.count Ev.initFail = 0 ∧
      (runSeq true outs).2 = true := by
  intro outs
  induction outs with
  | nil => decide
  | cons o rest ih =>
    obtain ⟨r, h, g⟩ := o
    obtain ⟨ih1, ih2, ih3⟩ := ih
    have ha := afterDb_count_init h g
    simp [runSeq, answerRun, List.count_append, List.count_cons, ih1, ih2, ih3,
      ha.1, ha.2]

/-- C9: across any number of sequential invocations of `answer` in one
process, the vector-store initialization succeeds at most once; after a
successful initialization the handle is cached and every later invocation
reuses it without re-initializing; a successful first call caches, and a
failed initialization does not cache (a later invocation retries). -/
theorem retrieval_single_init :
    (∀ outs : List (Bool × Bool × Bool), (runSeq false outs).1.count Ev.initOk ≤ 1) ∧
    (∀ outs : List (Bool × Bool × Bool),
      (runSeq true outs).1.count Ev.initOk = 0 ∧
      (runSeq true outs).1.count Ev.initFail = 0) ∧
    (∀ historyOk genOk : Bool, (answerRun false true historyOk genOk).2 = true) ∧
    (∀ historyOk genOk : Bool, (answerRun false false historyOk genOk).2 = false) := by
  refine ⟨?_, fun outs => ⟨(runSeq_cached_no_init outs).1, (runSeq_cached_no_init outs).2.1⟩,
    fun h g => rfl, fun h g => rfl⟩
  intro outs
  induction outs with
  | nil => decide
  | cons o rest ih =>
    obtain ⟨r, h, g⟩ := o
    cases r with
    | true =>
      have hc := runSeq_cached_no_init rest
      have ha := afterDb_count_init h g
      simp [runSeq, answerRun, List.count_append, List.count_cons, hc.1, ha.1]
    | false =>
      simpa [runSeq, answerRun, List.count_append, List.count_cons] using ih

/-! ## C5 (amended) — on texts without a closing angle bracket the channel
rule is exactly literal removal -/

/-- On a text with no `'>'` the lazy branch `.*?>` never matches. -/
theorem lazyToGt_eq_none :
    ∀ s : List Char, (∀ c ∈ s, c ≠ '>') → lazyToGt s = none := by
  intro s
  induction s with
  | nil => intro _; rfl
  | cons c rest ih =>
    intro h
    have hc : ¬ c = '>' := h c (List.mem_cons_self c rest)
    have ih' := ih fun x hx => h x (List.mem_cons_of_mem c hx)
    simp only [lazyToGt, if_neg hc, ih']
    split <;> rfl

/-- On texts with no `'>'`, the channel regex substitution coincides with
plain literal removal of `<#` + cid (the second alternation branch is
dead). -/
theorem chanSubAux_eq_pyReplaceAux (cid : List Char) :
    ∀ (fuel : Nat) (s : List Char), (∀ c ∈ s, c ≠ '>') →
      chanSubAux cid fuel s = pyReplaceAux ('<' :: '#' :: cid) fuel s := by
  intro fuel
  induction fuel with
  | zero => intro s _; rfl
  | succ n ih =>
    intro s h
    cases s with
    | nil => rfl
    | cons c rest =>
      have hrest : ∀ x ∈ rest, x ≠ '>' := fun x hx => h x (List.mem_cons_of_mem c hx)
      by_cases hp : ('<' :: '#' :: cid).isPrefixOf (c :: rest) = true
      · have hm : chanMatchLen cid (c :: rest) = some (cid.length + 2) := by
          simp [chanMatchLen, hp]
        have hdrop : ∀ x ∈ rest.drop (cid.length + 2 - 1), x ≠ '>' :=
          fun x hx => hrest x (List.drop_subset _ _ hx)
        simp only [chanSubAux, pyReplaceAux, hm, hp, if_true, List.length_cons]
        exact ih _ hdrop
      · have hm : chanMatchLen cid (c :: rest) = none := by
          simp [chanMatchLen, hp, lazyToGt_eq_none (c :: rest) h]
        have hpb : ('<' :: '#' :: cid).isPrefixOf (c :: rest) = false :=
          Bool.not_eq_true _ ▸ eq_false_of_ne_true hp
        simp only [chanSubAux, pyReplaceAux, hm, hpb, if_false]
        exact congrArg (c :: ·) (ih rest hrest)

/-- C5 (amended): the claim fails in general because the unescaped `|`
makes `.*?>` a second branch of the channel pattern; on every text that
contains no `'>'` character (so the lazy branch cannot fire), `normalize`
with a single channel-reference segment carrying a non-empty alphanumeric
channel id removes exactly the literal occurrences of `<#` + cid and
leaves every other character unchanged apart from the final end trimming.

The hypothesis `hsafe` restricts the statement to channel ids with no
regex metacharacter, the domain on which the embedding of the unescaped
interpolation `'<#{}|.*?>'.format(cid)` as a literal first branch is
faithful to Python (see `chanMatchLen`); an id such as `"C|x"` or `"("`
would change the compiled pattern or raise, which the model does not
cover. -/
theorem channel_removal_no_gt (t cid : String) (hcid : cid ≠ "")
    (hsafe : ∀ c ∈ cid.data, c.isAlphanum = true)
    (h : ∀ c ∈ t.data, c ≠ '>') :
    normalize t (.cons (Block.mk "channel" .nil none (some cid) none) .nil)
      = pyStrip (pyReplace (String.mk ('<' :: '#' :: cid.data)) t) := by
  have hce : cid.isEmpty = false := by
    rw [Bool.eq_false_iff]
    intro hh
    exact hcid ((String.isEmpty_iff cid).mp hh)
  have htr : truthy (some cid) = true := by simp [truthy, hce]
  simp [normalize, normalizeL, goBlocks, stepBlock, BlockList.isEmpty, truthy,
    Option.getD, pyStrip, pyReplace, pyReplaceL, chanSubL, hce]
  exact congrArg (fun l => String.mk (pyStripL l))
    (chanSubAux_eq_pyReplaceAux cid.data t.length t.data h)

/-- Witness for `channel_removal_no_gt` at the text `"a <#C9 b"` and
channel id `"C9"`: the channel rule removes exactly the literal `<#C9`. -/
theorem channel_removal_no_gt_witness :
    normalize "a <#C9 b" (.cons (Block.mk "channel" .nil none (some "C9") none) .nil)
      = pyStrip (pyReplace (String.mk ('<' :: '#' :: "C9".data)) "a <#C9 b") :=
  channel_removal_no_gt "a <#C9 b" "C9" (by decide) (by decide) (by decide)

/-! ## C6 — segments with a missing or empty payload are skipped -/

/-- A childless block that triggers none of the three removal branches
leaves the text unchanged. -/
theorem stepBlock_id (b : Block) (he : b.elements = BlockList.nil)
    (hb : ¬(b.ty = "broadcast" ∧ truthy b.range = true))
    (hc : ¬(b.ty = "channel" ∧ truthy b.channel_id = true))
    (hu : ¬(b.ty = "user" ∧ truthy b.user_id = true)) :
    ∀ t, stepBlock t b = t := by
  intro t
  cases b with
  | mk ty els range channel_id user_id =>
    simp only [Block.ty, Block.elements, Block.range, Block.channel_id, Block.user_id]
      at he hb hc hu
    subst he
    have c1 : (decide (ty = "broadcast") && truthy range) = false := by
      by_cases hty : ty = "broadcast"
      · rcases Bool.eq_false_or_eq_true (truthy range) with h1 | h1
        · exact absurd ⟨hty, h1⟩ hb
        · simp [h1]
      · simp [hty]
    have c2 : (decide (ty = "channel") && truthy channel_id) = false := by
      by_cases hty : ty = "channel"
      · rcases Bool.eq_false_or_eq_true (truthy channel_id) with h1 | h1
        · exact absurd ⟨hty, h1⟩ hc
        · simp [h1]
      · simp [hty]
    have c3 : (decide (ty = "user") && truthy user_id) = false := by
      by_cases hty : ty = "user"
      · rcases Bool.eq_false_or_eq_true (truthy user_id) with h1 | h1
        · exact absurd ⟨hty, h1⟩ hu
        · simp [h1]
      · simp [hty]
    simp [stepBlock, BlockList.isEmpty, c1, c2, c3]

/-- Skipping an inert sibling anywhere in the loop does not change the
accumulated text. -/
theorem goBlocks_skip (b : Block) (hid : ∀ t, stepBlock t b = t) :
    ∀ (l1 l2 : BlockList) (t : List Char),
      goBlocks t (l1.append (.cons b l2)) = goBlocks t (l1.append l2)
  | .nil, l2, t => by
    simp only [BlockList.append, goBlocks, hid t]
  | .cons b' r, l2, t => by
    simp only [BlockList.append, goBlocks]
    exact goBlocks_skip b hid r l2 (stepBlock t b')

/-- C6: a childless segment whose expected payload field is missing or
empty (a broadcast marker without a scope, a channel reference without a
channel id, a user mention without a user id, or any unrecognized type)
performs no removal and does not fail, and the remaining segments are
still processed exactly as if the segment were not there. -/
theorem missing_payload_skip (t : List Char) (b : Block) (l1 l2 : BlockList)
    (he : b.elements = BlockList.nil)
    (hb : ¬(b.ty = "broadcast" ∧ truthy b.range = true))
    (hc : ¬(b.ty = "channel" ∧ truthy b.channel_id = true))
    (hu : ¬(b.ty = "user" ∧ truthy b.user_id = true)) :
    stepBlock t b = t ∧
    normalizeL t (l1.append (.cons b l2)) = normalizeL t (l1.append l2) := by
  have hid := stepBlock_id b he hb hc hu
  exact ⟨hid t, congrArg pyStripL (goBlocks_skip b hid l1 l2 t)⟩

/-- Witness for `missing_payload_skip`: a user-mention segment without a
user id is skipped. -/
theorem missing_payload_skip_witness :
    stepBlock "hi".data (Block.mk "user" .nil none none none) = "hi".data ∧
    normalizeL "hi".data
        (BlockList.nil.append (.cons (Block.mk "user" .nil none none none) BlockList.nil))
      = normalizeL "hi".data (BlockList.nil.append BlockList.nil) :=
  missing_payload_skip "hi".data (Block.mk "user" .nil none none none)
    BlockList.nil BlockList.nil rfl (by decide) (by decide) (by decide)

/-! ## C8 — thread timestamp defaulting -/

/-- C8: when the inbound event has no `thread_ts` field, the thread
timestamp passed to the orchestration — and with it the history key and
the reply thread — equals the event's own `ts`; when `thread_ts` is
present it is used unchanged. -/
theorem thread_ts_default (e : SlackEvent) (bs : BlockList) (hbs : e.blocks = some bs) :
    (e.thread_ts = none →
      ∃ a, handler_app_mention e = some a ∧ a.thread_ts = e.ts ∧
        (answerWiring a).historyKey = e.ts ∧ (answerWiring a).replyThread = e.ts) ∧
    (∀ s, e.thread_ts = some s →
      ∃ a, handler_app_mention e = some a ∧ a.thread_ts = s ∧
        (answerWiring a).historyKey = s ∧ (answerWiring a).replyThread = s) := by
  constructor
  · intro h
    exact ⟨{ channel := e.channel, text := e.text, ts := e.ts, thread_ts := e.ts, blocks := bs },
      by simp [handler_app_mention, hbs, h], rfl, rfl, rfl⟩
  · intro s h
    exact ⟨{ channel := e.channel, text := e.text, ts := e.ts, thread_ts := s, blocks := bs },
      by simp [handler_app_mention, hbs, h], rfl, rfl, rfl⟩

/-- Witness for `thread_ts_default`: the event `evThreadAbsent` has no
`thread_ts`, and the orchestration receives its `ts` as the thread
timestamp, history key and reply thread. -/
theorem thread_ts_default_witness :
    ∃ a, handler_app_mention evThreadAbsent = some a ∧
      a.thread_ts = evThreadAbsent.ts ∧
      (answerWiring a).historyKey = evThreadAbsent.ts ∧
      (answerWiring a).replyThread = evThreadAbsent.ts :=
  (thread_ts_default evThreadAbsent BlockList.nil rfl).1 rfl

end App
